import Mathlib

/-!
Verification development for the `usa_stock` repository (single source file
`app.py`). The file is a Streamlit page: it reads widget values from the
sidebar, derives a few values (uppercased ticker, default date range from
the wall clock, the selected strategy key and its parameter sliders) and
renders a fixed main area of five tabs filled with placeholder content and
a synthetic candlestick chart.

The page is embedded as a pure function from the wall-clock day and the
user's widget choices to a structured description of everything the page
displays. Dates are day numbers (days since 1970-01-01); `streamlit`
widgets are modelled by their rendered items.
-/

namespace UsaStock

/-- The values of the `strategy_options` dict in `app.py`. -/
inductive StrategyKey where
  | GoldenCross
  | Breakout
  | MultiFactor
deriving DecidableEq

/-- `strategy_options` (app.py lines 62-66): display name to strategy key,
in insertion order. -/
def strategy_options : List (String × StrategyKey) :=
  [("均線交叉策略", StrategyKey.GoldenCross),
   ("突破策略", StrategyKey.Breakout),
   ("多因子綜合策略", StrategyKey.MultiFactor)]

/-- `list(strategy_options.keys())`, the options offered by the selectbox. -/
def option_names : List String := strategy_options.map Prod.fst

/-- Day number (days since 1970-01-01) of 2025-01-01, the start of
`pd.date_range(start='2025-01-01', periods=100, freq='D')`. -/
def startDay : Nat := 20089

/-- The columns of the DataFrame built in `get_dummy_candlestick_chart`
(app.py lines 18-25). Dates are day numbers; prices are the plain
integers of the source lists. -/
structure ChartData where
  Date : List Nat
  Open : List Nat
  High : List Nat
  Low : List Nat
  Close : List Nat
deriving DecidableEq

/-- The Plotly figure returned by `get_dummy_candlestick_chart`: one
candlestick trace plus the layout fields set in app.py lines 28-41. -/
structure Figure where
  data : ChartData
  dataName : String
  title : String
  xaxisRangesliderVisible : Bool
  height : Nat
deriving DecidableEq

/-- `get_dummy_candlestick_chart(ticker)` (app.py lines 15-42): 100 daily
bars from 2025-01-01 with Open = 100 + i % 10, High = 105 + i % 10,
Low = 95 + i % 10, Close = 102 + i % 10, titled with the ticker. -/
def get_dummy_candlestick_chart (ticker : String) : Figure :=
  { data :=
      { Date := (List.range 100).map (fun i => startDay + i)
        Open := (List.range 100).map (fun i => 100 + i % 10)
        High := (List.range 100).map (fun i => 105 + i % 10)
        Low := (List.range 100).map (fun i => 95 + i % 10)
        Close := (List.range 100).map (fun i => 102 + i % 10) }
    dataName := "Candlestick"
    title := ticker ++ " 股價走勢 (模擬數據)"
    xaxisRangesliderVisible := false
    height := 500 }

/-- One rendered sidebar element. A button renders identically whether or
not it was pressed this run, so the item carries only its label; the press
is part of the user input. -/
inductive SidebarItem where
  | title (text : String)
  | textInput (label value : String)
  | subheader (text : String)
  | dateInput (label : String) (value : Nat)
  | selectbox (label : String) (options : List String) (selected : String)
  | markdown (text : String)
  | slider (label : String) (lo hi value : Nat)
  | info (text : String)
  | button (label : String)
  | success (text : String)
deriving DecidableEq

/-- One rendered main-area element. `analysisPeriod s e` stands for the
markdown line `分析期間: **{start_date}** 至 **{end_date}**` with the two
date values kept structurally. -/
inductive MainItem where
  | title (text : String)
  | analysisPeriod (startDate endDate : Nat)
  | tabBar (labels : List String)
  | header (text : String)
  | info (text : String)
  | subheader (text : String)
  | plotlyChart (fig : Figure)
  | warning (text : String)
  | dataframe (columns : List (String × List String))
  | caption (text : String)
deriving DecidableEq

/-- The state of every sidebar widget as chosen by the user: `none` means
the widget was left on its default. `strategy_choice` is an index into the
three selectbox options (a selectbox can only return one of the options
offered). `clicked` is whether the 執行策略回測 button was pressed this
run. -/
structure UserInput where
  ticker_raw : Option String
  start_date : Option Nat
  end_date : Option Nat
  strategy_choice : Option (Fin 3)
  fast_ma : Option Nat
  slow_ma : Option Nat
  period : Option Nat
  rsi_buy : Option Nat
  rsi_sell : Option Nat
  clicked : Bool

/-- All widgets on their defaults, button not pressed. -/
def noInput : UserInput :=
  ⟨none, none, none, none, none, none, none, none, none, false⟩

/-- The value an integer slider with range `lo..hi` and default `d` takes:
a slider only offers values inside its range, so a user choice is clamped
to `[lo, hi]`; an untouched slider sits at its default. -/
def sliderValue (lo hi d : Nat) (choice : Option Nat) : Nat :=
  match choice with
  | none => d
  | some v => min hi (max lo v)

/-- `ticker = st.sidebar.text_input("請輸入美股代碼", "AAPL").upper()`
(app.py line 53). `String.toUpper` agrees with Python `str.upper` on the
ASCII tickers the page is for. -/
def ticker_value (u : UserInput) : String :=
  (u.ticker_raw.getD "AAPL").toUpper

/-- `default_start_date = today - timedelta(days=10 * 365)` (line 48) is
the default of the 起始日期 date input (line 57). -/
def start_date_value (today : Nat) (u : UserInput) : Nat :=
  u.start_date.getD (today - 3650)

/-- The 結束日期 date input defaults to `today` (line 58). -/
def end_date_value (today : Nat) (u : UserInput) : Nat :=
  u.end_date.getD today

/-- The selectbox position: defaults to the first option. -/
def strategy_index (u : UserInput) : Fin 3 :=
  u.strategy_choice.getD 0

/-- `selected_strategy_name` (app.py lines 67-70): the chosen element of
`list(strategy_options.keys())`. -/
def selected_strategy_name (u : UserInput) : String :=
  option_names.get (Fin.cast (show 3 = option_names.length from rfl) (strategy_index u))

/-- Dict lookup `strategy_options[name]`. -/
def lookupStrategy (name : String) : Option StrategyKey :=
  List.lookup name strategy_options

/-- `selected_strategy_key = strategy_options[selected_strategy_name]`
(line 71). The lookup always succeeds because the selectbox only offers
the dict's keys (proved in `lookup_selected_name`), so the `getD` default
is never reached. -/
def selected_strategy_key (u : UserInput) : StrategyKey :=
  (lookupStrategy (selected_strategy_name u)).getD StrategyKey.GoldenCross

/-- Values selectable on the 短期均線 (Fast MA) slider (line 78). -/
def fast_ma_selectable (v : Nat) : Prop := 5 ≤ v ∧ v ≤ 60

/-- Values selectable on the 長期均線 (Slow MA) slider (line 79). -/
def slow_ma_selectable (v : Nat) : Prop := 50 ≤ v ∧ v ≤ 300

/-- Values selectable on the RSI 買入閾值 slider (line 87). -/
def rsi_buy_selectable (v : Nat) : Prop := 10 ≤ v ∧ v ≤ 40

/-- Values selectable on the RSI 賣出閾值 slider (line 88). -/
def rsi_sell_selectable (v : Nat) : Prop := 60 ≤ v ∧ v ≤ 90

instance : DecidablePred fast_ma_selectable :=
  fun v => inferInstanceAs (Decidable (5 ≤ v ∧ v ≤ 60))
instance : DecidablePred slow_ma_selectable :=
  fun v => inferInstanceAs (Decidable (50 ≤ v ∧ v ≤ 300))
instance : DecidablePred rsi_buy_selectable :=
  fun v => inferInstanceAs (Decidable (10 ≤ v ∧ v ≤ 40))
instance : DecidablePred rsi_sell_selectable :=
  fun v => inferInstanceAs (Decidable (60 ≤ v ∧ v ≤ 90))

def fast_ma_value (u : UserInput) : Nat := sliderValue 5 60 20 u.fast_ma
def slow_ma_value (u : UserInput) : Nat := sliderValue 50 300 60 u.slow_ma
def period_value (u : UserInput) : Nat := sliderValue 5 100 20 u.period
def rsi_buy_value (u : UserInput) : Nat := sliderValue 10 40 30 u.rsi_buy
def rsi_sell_value (u : UserInput) : Nat := sliderValue 60 90 70 u.rsi_sell

/-- The 參數調整 block (app.py lines 77-89): sliders and an info line for
the selected strategy's branch. -/
def param_section (u : UserInput) : List SidebarItem :=
  match selected_strategy_key u with
  | StrategyKey.GoldenCross =>
      [SidebarItem.slider "短期均線 (Fast MA)" 5 60 (fast_ma_value u),
       SidebarItem.slider "長期均線 (Slow MA)" 50 300 (slow_ma_value u),
       SidebarItem.info ("策略參數: 短期 " ++ toString (fast_ma_value u)
         ++ " 日, 長期 " ++ toString (slow_ma_value u) ++ " 日")]
  | StrategyKey.Breakout =>
      [SidebarItem.slider "突破週期 (Period)" 5 100 (period_value u),
       SidebarItem.info ("策略參數: " ++ toString (period_value u) ++ " 日突破")]
  | StrategyKey.MultiFactor =>
      [SidebarItem.slider "RSI 買入閾值" 10 40 (rsi_buy_value u),
       SidebarItem.slider "RSI 賣出閾值" 60 90 (rsi_sell_value u),
       SidebarItem.info ("策略參數: RSI 買入 < " ++ toString (rsi_buy_value u)
         ++ ", 賣出 > " ++ toString (rsi_sell_value u))]

/-- The sidebar up to and including the 執行策略回測 button
(app.py lines 50-93), before the click-conditional message. -/
def base_sidebar (today : Nat) (u : UserInput) : List SidebarItem :=
  [SidebarItem.title "📈 股市分析儀",
   SidebarItem.textInput "請輸入美股代碼" (u.ticker_raw.getD "AAPL"),
   SidebarItem.subheader "📅 分析日期範圍",
   SidebarItem.dateInput "起始日期" (start_date_value today u),
   SidebarItem.dateInput "結束日期" (end_date_value today u),
   SidebarItem.subheader "⚙️ 策略回測設定",
   SidebarItem.selectbox "選擇回測策略" option_names (selected_strategy_name u),
   SidebarItem.markdown "---",
   SidebarItem.subheader "參數調整"]
  ++ param_section u
  ++ [SidebarItem.markdown "---",
      SidebarItem.button "🚀 執行策略回測"]

/-- The whole sidebar: pressing the button appends exactly the success
message `回測請求已送出...` (app.py lines 93-94). -/
def sidebar_render (today : Nat) (u : UserInput) : List SidebarItem :=
  base_sidebar today u
    ++ (if u.clicked then [SidebarItem.success "回測請求已送出..."] else [])

/-- The labels passed to `st.tabs` (app.py lines 103-109). -/
def tab_labels : List String :=
  ["總覽 (Overview)", "基本面 (Fundamental)", "技術面 (Technical)",
   "心理面 (Sentiment)", "策略回測 (Backtest)"]

/-- 指標 column of the performance-metrics DataFrame (line 139). -/
def metrics_names : List String := ["年化報酬率", "最大回撤", "夏普比率"]

/-- 數值 column of the performance-metrics DataFrame (line 140). -/
def metrics_values : List String := ["25.5%", "-15.2%", "1.5"]

/-- The main area (app.py lines 99-146): title, period line, the five
tabs' placeholder content, and the closing caption. -/
def main_render (today : Nat) (u : UserInput) : List MainItem :=
  [MainItem.title ("美股綜合分析系統 - " ++ ticker_value u),
   MainItem.analysisPeriod (start_date_value today u) (end_date_value today u),
   MainItem.tabBar tab_labels,
   MainItem.header "總覽",
   MainItem.info ("正在顯示 " ++ ticker_value u ++ " 的公司基本資訊與股價摘要..."),
   MainItem.subheader "股價走勢",
   MainItem.plotlyChart (get_dummy_candlestick_chart (ticker_value u)),
   MainItem.header "基本面分析",
   MainItem.warning "此處將顯示財務報表趨勢圖與財務比率表格。",
   MainItem.header "技術面分析",
   MainItem.warning "此處將顯示可疊加技術指標的互動式 K 線圖。",
   MainItem.header "心理面分析",
   MainItem.warning "此處將顯示 VIX 恐慌指數圖與新聞情緒分析結果。",
   MainItem.header "策略回測結果",
   MainItem.warning ("當前選擇策略: **" ++ selected_strategy_name u ++ "**。回測結果將在此處呈現。"),
   MainItem.subheader "績效指標 (Performance Metrics)",
   MainItem.dataframe [("指標", metrics_names), ("數值", metrics_values)],
   MainItem.subheader "權益曲線圖 (Equity Curve)",
   MainItem.caption "本應用程式為美股分析系統的 Streamlit 介面設計範例。"]

/-- Everything one run of the script displays. -/
structure Page where
  sidebar : List SidebarItem
  main : List MainItem
deriving DecidableEq

/-- One run of `app.py`, as a function of the wall-clock day (read by
`date.today()` on line 47) and the state of every widget. -/
def app_run (today : Nat) (u : UserInput) : Page :=
  { sidebar := sidebar_render today u
    main := main_render today u }

/-- Update only the `clicked` field of a user input. -/
def setClicked (u : UserInput) (b : Bool) : UserInput :=
  { u with clicked := b }

/-- GoldenCross selected, Fast MA at 60, Slow MA at 50, button pressed. -/
def gcBadInput : UserInput :=
  ⟨none, none, none, some 0, some 60, some 50, none, none, none, true⟩

/-- Both dates chosen explicitly by the user; everything else default. -/
def datedInput : UserInput :=
  ⟨none, some 19723, some 20088, none, none, none, none, none, none, false⟩

/-- Is `c` one of the ASCII digits 0-9. -/
def isDigitChar (c : Char) : Bool :=
  48 ≤ c.toNat && c.toNat ≤ 57

/-- Numeric value of an ASCII digit. -/
def digitVal (c : Char) : Nat := c.toNat - 48

/-- The natural number a nonempty all-digit string of characters denotes. -/
def natOfDigits (cs : List Char) : Option Nat :=
  if cs.isEmpty || !cs.all isDigitChar then none
  else some (cs.foldl (fun acc c => 10 * acc + digitVal c) 0)

/-- Numeric denotation of a percent string such as "-15.2%": the signed
decimal number before the percent sign, divided by 100. -/
def parsePercent (s : String) : Option ℚ :=
  match s.data.getLast? with
  | some '%' =>
    let body := s.data.dropLast
    let neg : Bool := body.head? = some '-'
    let sign : ℚ := if neg then -1 else 1
    let mag := if neg then body.tail else body
    match mag.splitOn '.' with
    | [ip] => (natOfDigits ip).map (fun n => sign * (n : ℚ) / 100)
    | [ip, fp] =>
      match natOfDigits ip, natOfDigits fp with
      | some n, some f =>
          some (sign * ((n * 10 ^ fp.length + f : Nat) : ℚ)
            / ((100 * 10 ^ fp.length : Nat) : ℚ))
      | _, _ => none
    | _ => none
  | _ => none

/-! ## Helper lemmas -/

/-- `getD` on a mapped range evaluates pointwise. -/
theorem getD_map_range (f : Nat → Nat) (n i d : Nat) (h : i < n) :
    ((List.range n).map f).getD i d = f i := by
  rw [List.getD_eq_getElem?_getD]
  simp [List.getElem?_map, List.getElem?_range, h]

theorem base_sidebar_clicked (today : Nat) (u : UserInput) (b : Bool) :
    base_sidebar today (setClicked u b) = base_sidebar today u := rfl

theorem main_render_clicked (today : Nat) (u : UserInput) (b : Bool) :
    main_render today (setClicked u b) = main_render today u := rfl

/-- The dispatch over `strategy_options` can only produce one of its three
values. -/
theorem selected_key_cases (u : UserInput) :
    selected_strategy_key u = StrategyKey.GoldenCross ∨
    selected_strategy_key u = StrategyKey.Breakout ∨
    selected_strategy_key u = StrategyKey.MultiFactor := by
  unfold selected_strategy_key selected_strategy_name strategy_index
  rcases u.strategy_choice with _ | i
  · left; rfl
  · fin_cases i
    · left; rfl
    · right; left; rfl
    · right; right; rfl

/-- The dict access `strategy_options[selected_strategy_name]` always
succeeds: the selectbox only offers the dict's keys. -/
theorem lookup_selected_name (u : UserInput) :
    lookupStrategy (selected_strategy_name u) = some (selected_strategy_key u) := by
  unfold selected_strategy_key selected_strategy_name strategy_index
  rcases u.strategy_choice with _ | i
  · rfl
  · fin_cases i <;> rfl

/-! ## Claims -/

/-- C1 counterexample: with the GoldenCross strategy selected, 60 is
selectable on the Fast MA slider and 50 on the Slow MA slider; 60 < 50
fails, yet the page shows no rejection — clicking 執行策略回測 renders
exactly the sidebar below, which ends in the submission-success message
and contains no validation message of any kind. -/
theorem C1_counterexample :
    fast_ma_selectable 60 ∧ slow_ma_selectable 50 ∧ ¬ (60 < 50) ∧
    (app_run 20089 gcBadInput).sidebar =
      [SidebarItem.title "📈 股市分析儀",
       SidebarItem.textInput "請輸入美股代碼" "AAPL",
       SidebarItem.subheader "📅 分析日期範圍",
       SidebarItem.dateInput "起始日期" 16439,
       SidebarItem.dateInput "結束日期" 20089,
       SidebarItem.subheader "⚙️ 策略回測設定",
       SidebarItem.selectbox "選擇回測策略"
         ["均線交叉策略", "突破策略", "多因子綜合策略"] "均線交叉策略",
       SidebarItem.markdown "---",
       SidebarItem.subheader "參數調整",
       SidebarItem.slider "短期均線 (Fast MA)" 5 60 60,
       SidebarItem.slider "長期均線 (Slow MA)" 50 300 50,
       SidebarItem.info "策略參數: 短期 60 日, 長期 50 日",
       SidebarItem.markdown "---",
       SidebarItem.button "🚀 執行策略回測",
       SidebarItem.success "回測請求已送出..."] :=
  ⟨by decide, by decide, by decide, by rfl⟩

/-- C1 amended: the slider ranges alone guarantee fast_ma < slow_ma only
when fast_ma < 50 (the ranges are 5..60 and 50..300, so a violation needs
both values in the 50..60 overlap); no validation or rejection happens in
the code, as the counterexample shows. -/
theorem C1_golden_cross_partial (f s : Nat)
    (hf : fast_ma_selectable f) (hs : slow_ma_selectable s) (hlow : f < 50) :
    f < s := by
  obtain ⟨hf1, hf2⟩ := hf
  obtain ⟨hs1, hs2⟩ := hs
  omega

/-- C1 witness: at the slider defaults (fast 20, slow 60). -/
theorem C1_golden_cross_partial_witness :
    fast_ma_selectable 20 ∧ slow_ma_selectable 60 ∧ 20 < 50 ∧ 20 < 60 :=
  ⟨by decide, by decide, by decide,
   C1_golden_cross_partial 20 60 (by decide) (by decide) (by decide)⟩

/-- C2 counterexample: the page rendering does read the wall clock —
`date.today()` feeds the default date range — so two runs with identical
(all-default) user inputs on consecutive days render different pages. -/
theorem C2_counterexample :
    app_run 20089 noInput ≠ app_run 20090 noInput := by decide

/-- C2 amended: the rendering is deterministic and its only external
dependence is the wall-clock day read by `date.today()`, used for the two
date inputs' defaults: once the user picks both dates explicitly, the
rendered page is independent of the wall-clock day (and the candlestick
chart never depends on it at all). -/
theorem C2_wall_clock_only_defaults (d₁ d₂ : Nat) (u : UserInput)
    (h₁ : u.start_date.isSome = true) (h₂ : u.end_date.isSome = true) :
    app_run d₁ u = app_run d₂ u := by
  obtain ⟨a, ha⟩ := Option.isSome_iff_exists.mp h₁
  obtain ⟨b, hb⟩ := Option.isSome_iff_exists.mp h₂
  simp only [app_run, sidebar_render, base_sidebar, main_render,
    start_date_value, end_date_value, ha, hb, Option.getD_some]

/-- C2 witness: with both dates pinned, runs on two different days agree. -/
theorem C2_wall_clock_only_defaults_witness :
    (datedInput.start_date.isSome = true ∧ datedInput.end_date.isSome = true) ∧
    app_run 20089 datedInput = app_run 20090 datedInput :=
  ⟨⟨rfl, rfl⟩, C2_wall_clock_only_defaults 20089 20090 datedInput rfl rfl⟩

/-- C3: pressing the 執行策略回測 button changes nothing in the main
area — no data is loaded, no indicator or simulation runs — and its only
effect is appending the sidebar status message 回測請求已送出.... -/
theorem C3_button_only_status : ∀ (today : Nat) (u : UserInput),
    (app_run today (setClicked u true)).main
      = (app_run today (setClicked u false)).main ∧
    (app_run today (setClicked u true)).sidebar
      = (app_run today (setClicked u false)).sidebar
        ++ [SidebarItem.success "回測請求已送出..."] := by
  intro today u
  refine ⟨rfl, ?_⟩
  show sidebar_render today (setClicked u true)
      = sidebar_render today (setClicked u false) ++ _
  simp only [sidebar_render, base_sidebar_clicked]
  simp [setClicked]

/-- C4: the rendered price series has strictly increasing timestamps with
no duplicates: `pd.date_range(start='2025-01-01', periods=100, freq='D')`
yields consecutive days, so Date[i] < Date[j] whenever i < j < 100. -/
theorem C4_dates_strictly_increasing (ticker : String) (i j : Nat)
    (hij : i < j) (hj : j < 100) :
    ((get_dummy_candlestick_chart ticker).data.Date).getD i 0
      < ((get_dummy_candlestick_chart ticker).data.Date).getD j 0 := by
  have hi : i < 100 := lt_trans hij hj
  simp only [get_dummy_candlestick_chart]
  rw [getD_map_range _ _ _ _ hi, getD_map_range _ _ _ _ hj]
  omega

/-- C4 witness: the first two bars. -/
theorem C4_dates_strictly_increasing_witness :
    (0 < 1 ∧ 1 < 100) ∧
    ((get_dummy_candlestick_chart "AAPL").data.Date).getD 0 0
      < ((get_dummy_candlestick_chart "AAPL").data.Date).getD 1 0 :=
  ⟨⟨by decide, by decide⟩,
   C4_dates_strictly_increasing "AAPL" 0 1 (by decide) (by decide)⟩

/-- C5: the strategy configuration is a closed variant of exactly three
alternatives: the selectbox offers exactly the three option names, they
map to GoldenCross, Breakout and MultiFactor, the dict dispatch always
succeeds, and no run can select any other strategy key. -/
theorem C5_three_strategies :
    option_names = ["均線交叉策略", "突破策略", "多因子綜合策略"] ∧
    strategy_options.map Prod.snd
      = [StrategyKey.GoldenCross, StrategyKey.Breakout, StrategyKey.MultiFactor] ∧
    (∀ u : UserInput,
       lookupStrategy (selected_strategy_name u) = some (selected_strategy_key u)) ∧
    (∀ u : UserInput,
       selected_strategy_key u = StrategyKey.GoldenCross ∨
       selected_strategy_key u = StrategyKey.Breakout ∨
       selected_strategy_key u = StrategyKey.MultiFactor) :=
  ⟨rfl, rfl, lookup_selected_name, selected_key_cases⟩

/-- C6: every selectable pair of RSI thresholds satisfies
rsi_buy < rsi_sell — the slider ranges are 10..40 and 60..90, which never
overlap. -/
theorem C6_rsi_thresholds (b s : Nat)
    (hb : rsi_buy_selectable b) (hs : rsi_sell_selectable s) : b < s := by
  obtain ⟨hb1, hb2⟩ := hb
  obtain ⟨hs1, hs2⟩ := hs
  omega

/-- C6 witness: at the slider defaults (30, 70). -/
theorem C6_rsi_thresholds_witness :
    rsi_buy_selectable 30 ∧ rsi_sell_selectable 70 ∧ 30 < 70 :=
  ⟨by decide, by decide, C6_rsi_thresholds 30 70 (by decide) (by decide)⟩

/-- C7: the 最大回撤 entry of the metrics table reads "-15.2%", which
denotes -19/125 = -0.152, a negative fraction inside [-1, 0]. -/
theorem C7_max_drawdown_bounds :
    List.lookup "最大回撤" (metrics_names.zip metrics_values) = some "-15.2%" ∧
    parsePercent "-15.2%" = some (-19/125 : ℚ) ∧
    (-1 : ℚ) ≤ -19/125 ∧ (-19/125 : ℚ) ≤ 0 := by
  refine ⟨by decide, ?_, by norm_num, by norm_num⟩
  have h1 : parsePercent "-15.2%"
      = some ((-1 : ℚ) * ((15 * 10 ^ 1 + 2 : Nat) : ℚ) / ((100 * 10 ^ 1 : Nat) : ℚ)) := rfl
  rw [h1]
  simp only [Option.some.injEq]
  norm_num

/-- C8: every run renders the sidebar controls (ticker input, the two
date inputs, the strategy selectbox, a nonempty parameter-slider block)
and a main area whose tab bar has exactly the five tabs, filled with the
hard-coded metrics table and the synthetic candlestick chart. -/
theorem C8_layout :
    tab_labels.length = 5 ∧
    tab_labels = ["總覽 (Overview)", "基本面 (Fundamental)", "技術面 (Technical)",
      "心理面 (Sentiment)", "策略回測 (Backtest)"] ∧
    ∀ (today : Nat) (u : UserInput),
      MainItem.tabBar tab_labels ∈ (app_run today u).main ∧
      MainItem.dataframe [("指標", metrics_names), ("數值", metrics_values)]
        ∈ (app_run today u).main ∧
      MainItem.plotlyChart (get_dummy_candlestick_chart (ticker_value u))
        ∈ (app_run today u).main ∧
      SidebarItem.textInput "請輸入美股代碼" (u.ticker_raw.getD "AAPL")
        ∈ (app_run today u).sidebar ∧
      SidebarItem.dateInput "起始日期" (start_date_value today u)
        ∈ (app_run today u).sidebar ∧
      SidebarItem.dateInput "結束日期" (end_date_value today u)
        ∈ (app_run today u).sidebar ∧
      SidebarItem.selectbox "選擇回測策略" option_names (selected_strategy_name u)
        ∈ (app_run today u).sidebar ∧
      0 < (param_section u).length := by
  refine ⟨rfl, rfl, ?_⟩
  intro today u
  refine ⟨?_, ?_, ?_, ?_, ?_, ?_, ?_, ?_⟩
  · simp [app_run, main_render]
  · simp [app_run, main_render]
  · simp [app_run, main_render]
  · simp [app_run, sidebar_render, base_sidebar]
  · simp [app_run, sidebar_render, base_sidebar]
  · simp [app_run, sidebar_render, base_sidebar]
  · simp [app_run, sidebar_render, base_sidebar]
  · rcases selected_key_cases u with h | h | h <;>
      simp [param_section, h]

/-- C9: every bar of the synthetic chart is OHLC-consistent:
Low[i] = 95 + i % 10 ≤ Open[i] = 100 + i % 10 ≤ Close[i] = 102 + i % 10
≤ High[i] = 105 + i % 10, so low is the bar minimum and high the bar
maximum. -/
theorem C9_ohlc_consistent (ticker : String) (i : Nat) (h : i < 100) :
    ((get_dummy_candlestick_chart ticker).data.Low).getD i 0 = 95 + i % 10 ∧
    ((get_dummy_candlestick_chart ticker).data.Open).getD i 0 = 100 + i % 10 ∧
    ((get_dummy_candlestick_chart ticker).data.Close).getD i 0 = 102 + i % 10 ∧
    ((get_dummy_candlestick_chart ticker).data.High).getD i 0 = 105 + i % 10 ∧
    95 + i % 10 ≤ 100 + i % 10 ∧ 100 + i % 10 ≤ 102 + i % 10 ∧
    102 + i % 10 ≤ 105 + i % 10 := by
  refine ⟨?_, ?_, ?_, ?_, by omega, by omega, by omega⟩ <;>
    (simp only [get_dummy_candlestick_chart]; rw [getD_map_range _ _ _ _ h])

/-- C9 witness: the first bar. -/
theorem C9_ohlc_consistent_witness :
    0 < 100 ∧
    (((get_dummy_candlestick_chart "AAPL").data.Low).getD 0 0 = 95 + 0 % 10 ∧
     ((get_dummy_candlestick_chart "AAPL").data.Open).getD 0 0 = 100 + 0 % 10 ∧
     ((get_dummy_candlestick_chart "AAPL").data.Close).getD 0 0 = 102 + 0 % 10 ∧
     ((get_dummy_candlestick_chart "AAPL").data.High).getD 0 0 = 105 + 0 % 10 ∧
     95 + 0 % 10 ≤ 100 + 0 % 10 ∧ 100 + 0 % 10 ≤ 102 + 0 % 10 ∧
     102 + 0 % 10 ≤ 105 + 0 % 10) :=
  ⟨by decide, C9_ohlc_consistent "AAPL" 0 (by decide)⟩

/-- C10: the ticker is uppercased at the input boundary (`.upper()` on the
text input) and that same value appears in the page title, the overview
info line, and the chart the page embeds, whose own title carries it. -/
theorem C10_ticker_uppercased : ∀ (today : Nat) (u : UserInput),
    ticker_value u = (u.ticker_raw.getD "AAPL").toUpper ∧
    MainItem.title ("美股綜合分析系統 - " ++ ticker_value u) ∈ (app_run today u).main ∧
    MainItem.info ("正在顯示 " ++ ticker_value u ++ " 的公司基本資訊與股價摘要...")
      ∈ (app_run today u).main ∧
    (get_dummy_candlestick_chart (ticker_value u)).title
      = ticker_value u ++ " 股價走勢 (模擬數據)" ∧
    MainItem.plotlyChart (get_dummy_candlestick_chart (ticker_value u))
      ∈ (app_run today u).main := by
  intro today u
  refine ⟨rfl, ?_, ?_, rfl, ?_⟩ <;> simp [app_run, main_render]

end UsaStock
